import Mathlib

/-!
Verification development for the Euresys EGrabber camera driver
(`src/euresys.egrabber.cpp`).

Shallow embedding conventions:
* C `float` values (exposure time, capability bounds) are modelled as exact
  rationals `ℚ`; float arithmetic is modelled as exact rational arithmetic.
* Unsigned machine integers (`uint8_t`, `uint32_t`, `uint64_t`, `size_t`)
  are modelled as `Nat`, with an explicit `% 256` where the source performs
  a `uint8_t` cast of a wider value.
* The Euresys grabber hardware is modelled as a log of write commands
  (`HWWrite`).  A grabber write call appends to the log; the model treats
  hardware writes themselves as succeeding (the failure paths settled here
  are the driver's own validation/CHECK paths, which throw before or
  instead of writing).
* C++ exceptions thrown by `EXPECT`/`CHECK`/`std::unordered_map::at` are
  modelled by an error component of the result, carrying the error kind of
  the specification's taxonomy (ValidationError, CapacityError, ...).
  A thrown exception aborts the rest of the member function, so a failing
  step returns the state and write log accumulated so far.
-/

/-- `SampleType` enum of the generic camera property header.
Modelled from the spec: the header `device/props/camera.h` that declares the
enum is an external collaborator and is not part of this repository's
sources; the spec describes pixel type as an enum over a fixed set of sample
encodings plus `Unknown`.  `toNat` gives the C enum values, with
`SampleType_Unknown = SampleTypeCount`. -/
inductive SampleType
  | u8
  | u16
  | i8
  | i16
  | f32
  | u10
  | u12
  | u14
  | unknown
deriving DecidableEq, Repr

/-- C enum value of a `SampleType` constant. -/
def SampleType.toNat : SampleType → Nat
  | .u8 => 0
  | .u16 => 1
  | .i8 => 2
  | .i16 => 3
  | .f32 => 4
  | .u10 => 5
  | .u12 => 6
  | .u14 => 7
  | .unknown => 8

/-- `SampleTypeCount`: number of modelled sample encodings. -/
def SampleTypeCount : Nat := 8

/-- `TriggerEdge` enum of the generic camera property header.
Modelled from the spec: the declaring header is external to this
repository.  The source itself pins `Rising = 0` and `Falling = 1`
(it indexes the `activations` array by `target.edge` after checking
`target.edge < 2`). -/
inductive TriggerEdge
  | rising
  | falling
  | anyEdge
  | levelHigh
  | levelLow
  | unknown
deriving DecidableEq, Repr

/-- C enum value of a `TriggerEdge` constant. -/
def TriggerEdge.toNat : TriggerEdge → Nat
  | .rising => 0
  | .falling => 1
  | .anyEdge => 2
  | .levelHigh => 3
  | .levelLow => 4
  | .unknown => 5

/-- Signal direction of a trigger (`Signal_Input` / `Signal_Output`). -/
inductive SignalKind
  | input
  | output
deriving DecidableEq, Repr

/-- The `Trigger` record (enable, line, kind, edge).  `memcmp` equality of
the C struct is modelled as decidable structure equality. -/
structure Trigger where
  enable : Nat
  line : Nat
  kind : SignalKind
  edge : TriggerEdge
deriving DecidableEq, Repr

/-- `CameraProperties::camera_properties_offset_s` (x, y in pixels). -/
structure OffsetS where
  x : Nat
  y : Nat
deriving DecidableEq, Repr

/-- `CameraProperties::camera_properties_shape_s` (x, y in pixels). -/
structure ShapeS where
  x : Nat
  y : Nat
deriving DecidableEq, Repr

/-- The fields of `CameraProperties` that the driver reads and writes.
`frame_start` stands for `input_triggers.frame_start`. -/
structure CameraProperties where
  exposure_time_us : ℚ
  binning : Nat
  pixel_type : SampleType
  offset : OffsetS
  shape : ShapeS
  frame_start : Trigger
deriving DecidableEq, Repr

/-- Per-property capability metadata: writability and numeric range
(`writable`, `low`, `high`) as cached by `get_meta`. -/
structure Property where
  writable : Bool
  low : ℚ
  high : ℚ
deriving DecidableEq, Repr

/-- Capability metadata for a two-component (x, y) property. -/
structure PropertyXY where
  x : Property
  y : Property
deriving DecidableEq, Repr

/-- The fields of `CameraPropertyMetadata` used by the reconciler. -/
structure CameraPropertyMetadata where
  exposure_time_us : Property
  binning : Property
  offset : PropertyXY
  shape : PropertyXY
deriving DecidableEq, Repr

/-- GenICam feature names written through the grabber. -/
inductive Feature
  | ExposureTime
  | BinningHorizontal
  | BinningVertical
  | PixelFormat
  | OffsetX
  | OffsetY
  | Width
  | Height
  | TriggerSource
  | TriggerMode
  | TriggerActivation
deriving DecidableEq, Repr

/-- One hardware command issued through the grabber. -/
inductive HWWrite
  | setFloat (feature : Feature) (value : ℚ)
  | setInteger (feature : Feature) (value : Nat)
  | setString (feature : Feature) (value : String)
  | reallocBuffers (n : Nat)
  | startAcq
  | stopAcq
  | cancelPop
deriving DecidableEq, Repr

/-- Error kinds, following the specification's taxonomy.  In the source all
of these are C++ exceptions caught at the C shim boundary. -/
inductive CamErr
  | validation
  | checkFailed
  | capacity
  | outOfRange
deriving DecidableEq, Repr

/-- The mutable state of an `EGCamera` instance that the claims concern:
the last-known-settings cache, the last-known-capabilities cache, and the
adapter-local frame counter. -/
structure CamState where
  settings : CameraProperties
  caps : CameraPropertyMetadata
  frame_id : Nat
deriving DecidableEq, Repr

/-- `constexpr size_t NBUFFERS = 16`. -/
def NBUFFERS : Nat := 16

/-- `at_or`: lookup in an (unordered-map) table, returning `dflt` when the
key is absent. -/
def at_or {α β : Type} [DecidableEq α] (table : List (α × β)) (key : α)
    (dflt : β) : β :=
  match table.find? (fun kv => decide (kv.1 = key)) with
  | some kv => kv.2
  | none => dflt

/-- `px_type_table_`: GenICam PixelFormat names to `SampleType`. -/
def px_type_table : List (String × SampleType) :=
  [ ("Mono8", SampleType.u8),
    ("Mono10", SampleType.u10),
    ("Mono12", SampleType.u12),
    ("Mono14", SampleType.u14),
    ("Mono16", SampleType.u16) ]

/-- `px_type_inv_table_`: `SampleType` to GenICam PixelFormat name.
`std::unordered_map::at` on a missing key throws; the lookup is therefore
partial (`Option`). -/
def px_type_inv_table : SampleType → Option String
  | .u8 => some "Mono8"
  | .u10 => some "Mono10"
  | .u12 => some "Mono12"
  | .u14 => some "Mono14"
  | .u16 => some "Mono16"
  | _ => none

/-- `trig_edge_table_`: GenICam TriggerActivation names to `TriggerEdge`. -/
def trig_edge_table : List (String × TriggerEdge) :=
  [ ("RisingEdge", TriggerEdge.rising),
    ("FallingEdge", TriggerEdge.falling),
    ("AnyEdge", TriggerEdge.anyEdge),
    ("LevelHigh", TriggerEdge.levelHigh),
    ("LevelLow", TriggerEdge.levelLow) ]

/-- `EGCamera::TrigSrc`. -/
inductive TrigSrc
  | line0
  | software
  | unknown
deriving DecidableEq, Repr

/-- C enum value of a `TrigSrc` constant (`Trig_Line0 = 0`,
`Trig_Software = 1`). -/
def TrigSrc.toNat : TrigSrc → Nat
  | .line0 => 0
  | .software => 1
  | .unknown => 2

/-- `trig_src_table_`: GenICam TriggerSource names to `TrigSrc`. -/
def trig_src_table : List (String × TrigSrc) :=
  [ ("Line0", TrigSrc.line0),
    ("Software", TrigSrc.software) ]

/-- The float epsilon `1e-9` of the exposure-time comparison. -/
def eps : ℚ := 1 / 1000000000

/-- The source's `clamp` template at a floating-point value type:
`(fval < low) ? T(low) : (fval > high) ? T(high) : val`. -/
def clampF (val low high : ℚ) : ℚ :=
  if val < low then low else if val > high then high else val

/-- C cast of a float to an unsigned integer type: truncation toward zero
(negative inputs, undefined behaviour in C, are sent to 0). -/
def f2u (q : ℚ) : Nat := (q.num.tdiv (q.den : ℤ)).toNat

/-- The source's `clamp` template at an unsigned integer value type: the
value is converted to float for the comparisons and the bounds are cast
back to the integer type when selected. -/
def clampU (val : Nat) (low high : ℚ) : Nat :=
  if (val : ℚ) < low then f2u low
  else if (val : ℚ) > high then f2u high
  else val

/-- `EGCamera::maybe_set_exposure_time_us_`: write only when the target
differs from the cached value by more than `1e-9`; clamp to the cached
capability range; return the new cached value.  The second component is the
list of grabber writes issued. -/
def maybe_set_exposure_time_us_ (caps : CameraPropertyMetadata)
    (target_us last_value_us : ℚ) : ℚ × List HWWrite :=
  if |target_us - last_value_us| > eps then
    let t := clampF target_us caps.exposure_time_us.low
      caps.exposure_time_us.high
    (t, [HWWrite.setFloat .ExposureTime t])
  else
    (last_value_us, [])

/-- `EGCamera::maybe_set_binning`: on change, clamp, then write horizontal
and vertical binning only if the capability cache marks binning writable;
the clamped value is returned (and hence cached) either way. -/
def maybe_set_binning (caps : CameraPropertyMetadata)
    (target last_value : Nat) : Nat × List HWWrite :=
  if target ≠ last_value then
    let t := clampU target caps.binning.low caps.binning.high
    (t,
     if caps.binning.writable then
       [HWWrite.setInteger .BinningHorizontal t,
        HWWrite.setInteger .BinningVertical t]
     else [])
  else
    (last_value, [])

/-- `EGCamera::maybe_set_px_type`: `CHECK(target < SampleTypeCount)`, then
on change write the PixelFormat string obtained from
`px_type_inv_table_.at(target)` (which throws `std::out_of_range` when the
type has no name). -/
def maybe_set_px_type (target last_known : SampleType) :
    Except CamErr (SampleType × List HWWrite) :=
  if target.toNat < SampleTypeCount then
    if target ≠ last_known then
      match px_type_inv_table target with
      | some s => .ok (target, [HWWrite.setString .PixelFormat s])
      | none => .error .outOfRange
    else
      .ok (last_known, [])
  else
    .error .checkFailed

/-- `EGCamera::maybe_set_offset`: x and y are reconciled independently and
sequentially; each changed component is clamped to its cached capability
range, written, and recorded in the returned record. -/
def maybe_set_offset (caps : CameraPropertyMetadata)
    (target last : OffsetS) : OffsetS × List HWWrite :=
  let r1 :=
    if target.x ≠ last.x then
      let tx := clampU target.x caps.offset.x.low caps.offset.x.high
      ({ last with x := tx }, [HWWrite.setInteger .OffsetX tx])
    else (last, ([] : List HWWrite))
  let r2 :=
    if target.y ≠ r1.1.y then
      let ty := clampU target.y caps.offset.y.low caps.offset.y.high
      ({ r1.1 with y := ty }, [HWWrite.setInteger .OffsetY ty])
    else (r1.1, ([] : List HWWrite))
  (r2.1, r1.2 ++ r2.2)

/-- `EGCamera::maybe_set_shape`: like `maybe_set_offset`, for Width and
Height. -/
def maybe_set_shape (caps : CameraPropertyMetadata)
    (target last : ShapeS) : ShapeS × List HWWrite :=
  let r1 :=
    if target.x ≠ last.x then
      let tx := clampU target.x caps.shape.x.low caps.shape.x.high
      ({ last with x := tx }, [HWWrite.setInteger .Width tx])
    else (last, ([] : List HWWrite))
  let r2 :=
    if target.y ≠ r1.1.y then
      let ty := clampU target.y caps.shape.y.low caps.shape.y.high
      ({ r1.1 with y := ty }, [HWWrite.setInteger .Height ty])
    else (r1.1, ([] : List HWWrite))
  (r2.1, r1.2 ++ r2.2)

/-- `EGCamera::maybe_set_trigger`: no-op when the record equals the cached
record (memcmp); otherwise validate `line < 2`, `edge < 2`, `enable < 2`
(each violation throws, modelled as `ValidationError`), then write
TriggerSource, TriggerMode, TriggerActivation in that order. -/
def maybe_set_trigger (target last : Trigger) :
    Except CamErr (List HWWrite) :=
  if target = last then
    .ok []
  else if ¬ target.line < 2 then
    .error .validation
  else if ¬ target.edge.toNat < 2 then
    .error .validation
  else if ¬ target.enable < 2 then
    .error .validation
  else
    .ok [HWWrite.setString .TriggerSource
           (["Line0", "Software"].getD target.line ""),
         HWWrite.setString .TriggerMode
           (["Off", "On"].getD target.enable ""),
         HWWrite.setString .TriggerActivation
           (["RisingEdge", "FallingEdge"].getD target.edge.toNat "")]

/-- Result of `EGCamera::set`: the state after the call (reflecting the
fields that were applied before any failure), the hardware writes issued,
and the error kind if the call threw. -/
structure SetOutcome where
  state : CamState
  writes : List HWWrite
  err : Option CamErr
deriving DecidableEq, Repr

/-- `EGCamera::set`: reconcile exposure, binning, pixel type, offset,
shape, trigger in that order, assigning each result into the
last-known-settings cache as it is produced; a throwing step aborts the
remaining steps (the cache keeps the assignments already made; the trigger
step never assigns into the cache).  On full success the buffer pool is
reallocated to `NBUFFERS` as the final action. -/
def EGCamera.set (st : CamState) (p : CameraProperties) : SetOutcome :=
  let r1 := maybe_set_exposure_time_us_ st.caps p.exposure_time_us
    st.settings.exposure_time_us
  let s1 : CameraProperties := { st.settings with exposure_time_us := r1.1 }
  let r2 := maybe_set_binning st.caps p.binning s1.binning
  let s2 : CameraProperties := { s1 with binning := r2.1 }
  match maybe_set_px_type p.pixel_type s2.pixel_type with
  | .error e =>
    { state := { st with settings := s2 }, writes := r1.2 ++ r2.2,
      err := some e }
  | .ok r3 =>
    let s3 : CameraProperties := { s2 with pixel_type := r3.1 }
    let r4 := maybe_set_offset st.caps p.offset s3.offset
    let s4 : CameraProperties := { s3 with offset := r4.1 }
    let r5 := maybe_set_shape st.caps p.shape s4.shape
    let s5 : CameraProperties := { s4 with shape := r5.1 }
    match maybe_set_trigger p.frame_start s5.frame_start with
    | .error e =>
      { state := { st with settings := s5 },
        writes := r1.2 ++ r2.2 ++ r3.2 ++ r4.2 ++ r5.2, err := some e }
    | .ok r6 =>
      { state := { st with settings := s5 },
        writes := r1.2 ++ r2.2 ++ r3.2 ++ r4.2 ++ r5.2 ++ r6
          ++ [HWWrite.reallocBuffers NBUFFERS],
        err := none }

/-- Readings the device returns to `EGCamera::get` (one field per grabber
query the function performs). -/
structure DeviceReadings where
  exposureTime : ℚ
  binningHorizontal : Nat
  pixelFormat : String
  offsetX : Nat
  offsetY : Nat
  width : Nat
  height : Nat
  triggerSource : String
  triggerMode : Nat
  triggerActivation : String
deriving DecidableEq, Repr

/-- The default trigger record `dflt` of `EGCamera::get`. -/
def dflt : Trigger :=
  { enable := 0, line := 0, kind := .input, edge := .rising }

/-- `EGCamera::get`: read the scalar properties from the device; read the
frame-start trigger only when TriggerSource maps to Line0 or Software,
falling back to the default record otherwise; refresh the
last-known-settings cache with the result. -/
def EGCamera.get (st : CamState) (dev : DeviceReadings) :
    CameraProperties × CamState :=
  let base : CameraProperties :=
    { exposure_time_us := dev.exposureTime,
      binning := dev.binningHorizontal % 256,
      pixel_type := at_or px_type_table dev.pixelFormat SampleType.unknown,
      offset := { x := dev.offsetX, y := dev.offsetY },
      shape := { x := dev.width, y := dev.height },
      frame_start := dflt }
  let src := at_or trig_src_table dev.triggerSource TrigSrc.unknown
  let props :=
    match src with
    | .line0 | .software =>
      { base with frame_start :=
          { enable := dev.triggerMode % 256,
            line := src.toNat,
            kind := .input,
            edge := at_or trig_edge_table dev.triggerActivation
              TriggerEdge.unknown } }
    | .unknown => base
  (props, { st with settings := props })

/-- `EGCamera::query_pixel_type_capabilities_`: fold the device-reported
PixelFormat strings into the supported-pixel-types bitmask, sending each
string through `at_or(px_type_table_, v, SampleType_Unknown)`. -/
def query_pixel_type_capabilities (formats : List String) : Nat :=
  formats.foldl
    (fun acc v =>
      acc |||
        (1 <<< (at_or px_type_table v SampleType.unknown).toNat))
    0

/-- `EGCamera::start`: reset the frame counter, reallocate the buffer pool,
begin streaming. -/
def EGCamera.start (st : CamState) : CamState × List HWWrite :=
  ({ st with frame_id := 0 },
   [HWWrite.reallocBuffers NBUFFERS, HWWrite.startAcq])

/-- The buffer information the device delivers to `EGCamera::get_frame`
(`ScopedBuffer` queries): delivered byte count, base-pointer non-nullness,
geometry, pixel format and timestamp. -/
structure BufferInfo where
  size : Nat
  baseNonNull : Bool
  width : Nat
  height : Nat
  deliveredHeight : Nat
  pixelFormat : String
  timestamp_ns : Nat
deriving DecidableEq, Repr

/-- `ImageShape::image_dims_s`. -/
structure ImageDims where
  channels : Nat
  width : Nat
  height : Nat
  planes : Nat
deriving DecidableEq, Repr

/-- `ImageShape::image_strides_s`. -/
structure ImageStrides where
  channels : Nat
  width : Nat
  height : Nat
  planes : Nat
deriving DecidableEq, Repr

/-- `ImageShape` as filled by `get_frame` (dims, strides, sample type). -/
structure ImageShapeS where
  dims : ImageDims
  strides : ImageStrides
  sample_type : SampleType
deriving DecidableEq, Repr

/-- `ImageInfo`: shape, hardware timestamp, adapter-local frame id. -/
structure ImageInfo where
  shape : ImageShapeS
  hardware_timestamp : Nat
  hardware_frame_id : Nat
deriving DecidableEq, Repr

/-- Result of `EGCamera::get_frame`: the produced `ImageInfo` (none when
the call threw), the state after the call, the number of bytes copied into
the caller's buffer, and the error kind if the call threw. -/
structure FrameOutcome where
  info : Option ImageInfo
  state : CamState
  bytes_copied : Nat
  err : Option CamErr
deriving DecidableEq, Repr

/-- `EGCamera::get_frame`: `CHECK(*nbytes >= buf_info.size)` (capacity
guard, CapacityError in the spec taxonomy), `EXPECT(buf_info.base)`; then
copy `buf_info.size` bytes and build the `ImageInfo`, assigning
`hardware_frame_id` from the adapter counter which is post-incremented.
The delivered-height-mismatch diagnostic is a log line only and does not
affect the result. -/
def EGCamera.get_frame (st : CamState) (nbytes : Nat) (buf : BufferInfo) :
    FrameOutcome :=
  if ¬ nbytes ≥ buf.size then
    { info := none, state := st, bytes_copied := 0, err := some .capacity }
  else if ¬ buf.baseNonNull then
    { info := none, state := st, bytes_copied := 0, err := some .validation }
  else
    { info := some
        { shape :=
            { dims := { channels := 1, width := buf.width,
                        height := buf.height, planes := 1 },
              strides := { channels := 1, width := 1, height := buf.width,
                           planes := buf.width * buf.height },
              sample_type := at_or px_type_table buf.pixelFormat
                SampleType.unknown },
          hardware_timestamp := buf.timestamp_ns,
          hardware_frame_id := st.frame_id },
      state := { st with frame_id := st.frame_id + 1 },
      bytes_copied := buf.size,
      err := none }

/-- Run a sequence of `get_frame` calls (capacity and delivered buffer per
call), collecting each call's produced `ImageInfo` (none for a failed
call). -/
def runFrames : CamState → List (Nat × BufferInfo) →
    List (Option ImageInfo) × CamState
  | st, [] => ([], st)
  | st, c :: rest =>
    let r := EGCamera.get_frame st c.1 c.2
    let rr := runFrames r.state rest
    (r.info :: rr.1, rr.2)

/-- `EGDriver::device_count`: runs SDK discovery and returns the camera
count; the SDK call may throw, so its outcome is an `Except` parameter. -/
def EGDriver.device_count (discovery : Except CamErr Nat) :
    Except CamErr Nat :=
  discovery

/-- `eecam_device_count`: the C shim around `EGDriver::device_count`.
`CHECK(self_)` throws on a null driver handle; every exception is caught
and turned into the return value 0. -/
def eecam_device_count (self_ : Option Unit)
    (discovery : Except CamErr Nat) : Nat :=
  match self_ with
  | none => 0
  | some _ =>
    match EGDriver.device_count discovery with
    | .ok n => n
    | .error _ => 0

/-- Decidable test that `maybe_set_px_type` succeeds (used to express that
`set` reaches the steps after the pixel-type step). -/
def pxOk (target last_known : SampleType) : Bool :=
  match maybe_set_px_type target last_known with
  | .ok _ => true
  | .error _ => false

/-- Concrete capability cache used to exercise the theorems on explicit
inputs. -/
def capsW : CameraPropertyMetadata :=
  { exposure_time_us := { writable := true, low := 10, high := 1000 },
    binning := { writable := true, low := 1, high := 4 },
    offset := { x := { writable := true, low := 0, high := 100 },
                y := { writable := true, low := 0, high := 80 } },
    shape := { x := { writable := true, low := 4, high := 640 },
               y := { writable := true, low := 4, high := 480 } } }

/-- Concrete cached settings used to exercise the theorems. -/
def settingsW : CameraProperties :=
  { exposure_time_us := 100, binning := 1, pixel_type := .u8,
    offset := { x := 0, y := 0 }, shape := { x := 640, y := 480 },
    frame_start := dflt }

/-- Concrete camera state used to exercise the theorems. -/
def stW : CamState := { settings := settingsW, caps := capsW, frame_id := 0 }

/-- Desired properties in which every numeric field differs from the cache
and lies outside its capability range. -/
def propsC1 : CameraProperties :=
  { exposure_time_us := 2000, binning := 9, pixel_type := .u8,
    offset := { x := 300, y := 200 }, shape := { x := 9000, y := 1 },
    frame_start := dflt }

/-- Desired properties with an invalid trigger update (line = 2). -/
def propsC3 : CameraProperties :=
  { settingsW with frame_start :=
      { enable := 1, line := 2, kind := .input, edge := .rising } }

/-- Capability cache in which binning is not writable. -/
def capsNW : CameraPropertyMetadata :=
  { capsW with binning := { writable := false, low := 1, high := 4 } }

/-- Camera state whose capability cache marks binning unwritable. -/
def stNW : CamState :=
  { settings := settingsW, caps := capsNW, frame_id := 0 }

/-- Desired properties that change only binning. -/
def propsC8 : CameraProperties := { settingsW with binning := 3 }

/-- A small delivered buffer. -/
def bufOkW : BufferInfo :=
  { size := 4, baseNonNull := true, width := 2, height := 2,
    deliveredHeight := 2, pixelFormat := "Mono8", timestamp_ns := 7 }

/-- A delivered buffer larger than a 3-byte caller buffer. -/
def bufBigW : BufferInfo :=
  { size := 100, baseNonNull := true, width := 10, height := 10,
    deliveredHeight := 10, pixelFormat := "Mono8", timestamp_ns := 8 }

/-- A call sequence with a failing `get_frame` call in the middle. -/
def callsW : List (Nat × BufferInfo) :=
  [(10, bufOkW), (3, bufBigW), (10, bufOkW)]

/-- Device readings whose TriggerSource string the adapter does not
recognize. -/
def devFooW : DeviceReadings :=
  { exposureTime := 100, binningHorizontal := 1, pixelFormat := "Mono8",
    offsetX := 0, offsetY := 0, width := 2, height := 2,
    triggerSource := "Bogus", triggerMode := 1,
    triggerActivation := "FallingEdge" }

/-- Device readings with TriggerSource Line0 and an unrecognized
TriggerActivation string. -/
def devLine0W : DeviceReadings :=
  { devFooW with triggerSource := "Line0", triggerActivation := "Bogus" }

lemma exposure_fst (caps : CameraPropertyMetadata) (t l : ℚ) :
    (maybe_set_exposure_time_us_ caps t l).1 =
      if |t - l| > eps then
        clampF t caps.exposure_time_us.low caps.exposure_time_us.high
      else l := by
  unfold maybe_set_exposure_time_us_
  by_cases h : |t - l| > eps <;> simp [h]

lemma exposure_snd (caps : CameraPropertyMetadata) (t l : ℚ) :
    (maybe_set_exposure_time_us_ caps t l).2 =
      if |t - l| > eps then
        [HWWrite.setFloat .ExposureTime
          (clampF t caps.exposure_time_us.low caps.exposure_time_us.high)]
      else [] := by
  unfold maybe_set_exposure_time_us_
  by_cases h : |t - l| > eps <;> simp [h]

lemma mem_exposure_writes {caps : CameraPropertyMetadata} {t l : ℚ}
    {x : HWWrite} (hx : x ∈ (maybe_set_exposure_time_us_ caps t l).2) :
    |t - l| > eps ∧
      x = HWWrite.setFloat .ExposureTime
        (clampF t caps.exposure_time_us.low caps.exposure_time_us.high) := by
  rw [exposure_snd] at hx
  by_cases h : |t - l| > eps
  · simp [h] at hx
    exact ⟨h, hx⟩
  · simp [h] at hx

lemma binning_fst (caps : CameraPropertyMetadata) (t l : Nat) :
    (maybe_set_binning caps t l).1 =
      if t ≠ l then clampU t caps.binning.low caps.binning.high else l := by
  unfold maybe_set_binning
  by_cases h : t = l <;> simp [h]

lemma binning_snd (caps : CameraPropertyMetadata) (t l : Nat) :
    (maybe_set_binning caps t l).2 =
      if t ≠ l ∧ caps.binning.writable = true then
        [HWWrite.setInteger .BinningHorizontal
           (clampU t caps.binning.low caps.binning.high),
         HWWrite.setInteger .BinningVertical
           (clampU t caps.binning.low caps.binning.high)]
      else [] := by
  unfold maybe_set_binning
  by_cases h : t = l <;> by_cases hw : caps.binning.writable = true <;>
    simp [h, hw]

lemma mem_binning_writes {caps : CameraPropertyMetadata} {t l : Nat}
    {x : HWWrite} (hx : x ∈ (maybe_set_binning caps t l).2) :
    t ≠ l ∧ caps.binning.writable = true ∧
      (x = HWWrite.setInteger .BinningHorizontal
         (clampU t caps.binning.low caps.binning.high) ∨
       x = HWWrite.setInteger .BinningVertical
         (clampU t caps.binning.low caps.binning.high)) := by
  rw [binning_snd] at hx
  by_cases h : t ≠ l ∧ caps.binning.writable = true
  · simp only [if_pos h] at hx
    simp at hx
    exact ⟨h.1, h.2, hx⟩
  · simp [if_neg h] at hx

lemma offset_fst_x (caps : CameraPropertyMetadata) (t l : OffsetS) :
    (maybe_set_offset caps t l).1.x =
      if t.x ≠ l.x then clampU t.x caps.offset.x.low caps.offset.x.high
      else l.x := by
  unfold maybe_set_offset
  by_cases hx : t.x = l.x <;> by_cases hy : t.y = l.y <;> simp [hx, hy]

lemma offset_fst_y (caps : CameraPropertyMetadata) (t l : OffsetS) :
    (maybe_set_offset caps t l).1.y =
      if t.y ≠ l.y then clampU t.y caps.offset.y.low caps.offset.y.high
      else l.y := by
  unfold maybe_set_offset
  by_cases hx : t.x = l.x <;> by_cases hy : t.y = l.y <;> simp [hx, hy]

lemma offset_snd (caps : CameraPropertyMetadata) (t l : OffsetS) :
    (maybe_set_offset caps t l).2 =
      (if t.x ≠ l.x then
        [HWWrite.setInteger .OffsetX
          (clampU t.x caps.offset.x.low caps.offset.x.high)]
      else []) ++
      (if t.y ≠ l.y then
        [HWWrite.setInteger .OffsetY
          (clampU t.y caps.offset.y.low caps.offset.y.high)]
      else []) := by
  unfold maybe_set_offset
  by_cases hx : t.x = l.x <;> by_cases hy : t.y = l.y <;> simp [hx, hy]

lemma mem_offset_writes {caps : CameraPropertyMetadata} {t l : OffsetS}
    {x : HWWrite} (hx : x ∈ (maybe_set_offset caps t l).2) :
    (t.x ≠ l.x ∧
       x = HWWrite.setInteger .OffsetX
         (clampU t.x caps.offset.x.low caps.offset.x.high)) ∨
    (t.y ≠ l.y ∧
       x = HWWrite.setInteger .OffsetY
         (clampU t.y caps.offset.y.low caps.offset.y.high)) := by
  rw [offset_snd] at hx
  simp only [List.mem_append] at hx
  rcases hx with hx | hx
  · by_cases h : t.x = l.x
    · simp [h] at hx
    · simp [h] at hx
      exact Or.inl ⟨h, hx⟩
  · by_cases h : t.y = l.y
    · simp [h] at hx
    · simp [h] at hx
      exact Or.inr ⟨h, hx⟩

lemma shape_fst_x (caps : CameraPropertyMetadata) (t l : ShapeS) :
    (maybe_set_shape caps t l).1.x =
      if t.x ≠ l.x then clampU t.x caps.shape.x.low caps.shape.x.high
      else l.x := by
  unfold maybe_set_shape
  by_cases hx : t.x = l.x <;> by_cases hy : t.y = l.y <;> simp [hx, hy]

lemma shape_fst_y (caps : CameraPropertyMetadata) (t l : ShapeS) :
    (maybe_set_shape caps t l).1.y =
      if t.y ≠ l.y then clampU t.y caps.shape.y.low caps.shape.y.high
      else l.y := by
  unfold maybe_set_shape
  by_cases hx : t.x = l.x <;> by_cases hy : t.y = l.y <;> simp [hx, hy]

lemma shape_snd (caps : CameraPropertyMetadata) (t l : ShapeS) :
    (maybe_set_shape caps t l).2 =
      (if t.x ≠ l.x then
        [HWWrite.setInteger .Width
          (clampU t.x caps.shape.x.low caps.shape.x.high)]
      else []) ++
      (if t.y ≠ l.y then
        [HWWrite.setInteger .Height
          (clampU t.y caps.shape.y.low caps.shape.y.high)]
      else []) := by
  unfold maybe_set_shape
  by_cases hx : t.x = l.x <;> by_cases hy : t.y = l.y <;> simp [hx, hy]

lemma mem_shape_writes {caps : CameraPropertyMetadata} {t l : ShapeS}
    {x : HWWrite} (hx : x ∈ (maybe_set_shape caps t l).2) :
    (t.x ≠ l.x ∧
       x = HWWrite.setInteger .Width
         (clampU t.x caps.shape.x.low caps.shape.x.high)) ∨
    (t.y ≠ l.y ∧
       x = HWWrite.setInteger .Height
         (clampU t.y caps.shape.y.low caps.shape.y.high)) := by
  rw [shape_snd] at hx
  simp only [List.mem_append] at hx
  rcases hx with hx | hx
  · by_cases h : t.x = l.x
    · simp [h] at hx
    · simp [h] at hx
      exact Or.inl ⟨h, hx⟩
  · by_cases h : t.y = l.y
    · simp [h] at hx
    · simp [h] at hx
      exact Or.inr ⟨h, hx⟩

lemma mem_px_writes {t l : SampleType} {r : SampleType × List HWWrite}
    {x : HWWrite} (hr : maybe_set_px_type t l = .ok r) (hx : x ∈ r.2) :
    t ≠ l ∧ ∃ s, px_type_inv_table t = some s ∧
      x = HWWrite.setString .PixelFormat s := by
  unfold maybe_set_px_type at hr
  by_cases hc : t.toNat < SampleTypeCount
  · rw [if_pos hc] at hr
    by_cases hne : t = l
    · simp [hne] at hr
      rw [← hr] at hx
      simp at hx
    · rw [if_pos hne] at hr
      rcases hs : px_type_inv_table t with _ | s
      · rw [hs] at hr
        simp at hr
      · rw [hs] at hr
        simp at hr
        rw [← hr] at hx
        simp at hx
        exact ⟨hne, s, rfl, hx⟩
  · rw [if_neg hc] at hr
    simp at hr

lemma px_fst {t l : SampleType} {r : SampleType × List HWWrite}
    (hr : maybe_set_px_type t l = .ok r) : r.1 = t := by
  unfold maybe_set_px_type at hr
  by_cases hc : t.toNat < SampleTypeCount
  · rw [if_pos hc] at hr
    by_cases hne : t = l
    · simp [hne] at hr
      rw [← hr, hne]
    · rw [if_pos hne] at hr
      rcases hs : px_type_inv_table t with _ | s
      · rw [hs] at hr
        simp at hr
      · rw [hs] at hr
        simp at hr
        rw [← hr]
  · rw [if_neg hc] at hr
    simp at hr

lemma trigger_eq {t l : Trigger} (h : t = l) :
    maybe_set_trigger t l = .ok [] := by
  unfold maybe_set_trigger
  simp [h]

lemma trigger_invalid {t l : Trigger} (hne : t ≠ l)
    (hbad : ¬ (t.line < 2 ∧ t.edge.toNat < 2 ∧ t.enable < 2)) :
    maybe_set_trigger t l = .error .validation := by
  unfold maybe_set_trigger
  by_cases h1 : t.line < 2 <;> by_cases h2 : t.edge.toNat < 2 <;>
    by_cases h3 : t.enable < 2 <;>
    simp [hne, h1, h2, h3]
  exact absurd ⟨h1, h2, h3⟩ hbad

lemma mem_trigger_writes {t l : Trigger} {w : List HWWrite} {x : HWWrite}
    (hw : maybe_set_trigger t l = .ok w) (hx : x ∈ w) :
    t ≠ l ∧ ∃ f s, (f = Feature.TriggerSource ∨ f = Feature.TriggerMode ∨
      f = Feature.TriggerActivation) ∧ x = HWWrite.setString f s := by
  unfold maybe_set_trigger at hw
  by_cases hne : t = l
  · simp [hne] at hw
    simp [hw] at hx
  · refine ⟨hne, ?_⟩
    by_cases h1 : t.line < 2 <;> by_cases h2 : t.edge.toNat < 2 <;>
      by_cases h3 : t.enable < 2 <;> simp [hne, h1, h2, h3] at hw
    rw [← hw] at hx
    simp at hx
    rcases hx with hx | hx | hx
    · exact ⟨.TriggerSource, _, Or.inl rfl, hx⟩
    · exact ⟨.TriggerMode, _, Or.inr (Or.inl rfl), hx⟩
    · exact ⟨.TriggerActivation, _, Or.inr (Or.inr rfl), hx⟩

lemma mem_set_writes {st : CamState} {p : CameraProperties} {x : HWWrite}
    (hx : x ∈ (EGCamera.set st p).writes) :
    x ∈ (maybe_set_exposure_time_us_ st.caps p.exposure_time_us
          st.settings.exposure_time_us).2
  ∨ x ∈ (maybe_set_binning st.caps p.binning st.settings.binning).2
  ∨ (∃ r3, maybe_set_px_type p.pixel_type st.settings.pixel_type = .ok r3 ∧
       x ∈ r3.2)
  ∨ x ∈ (maybe_set_offset st.caps p.offset st.settings.offset).2
  ∨ x ∈ (maybe_set_shape st.caps p.shape st.settings.shape).2
  ∨ (∃ w6, maybe_set_trigger p.frame_start st.settings.frame_start = .ok w6 ∧
       x ∈ w6)
  ∨ x = HWWrite.reallocBuffers NBUFFERS := by
  simp only [EGCamera.set] at hx
  split at hx
  next e3 heq =>
    simp at hx
    rcases hx with hx | hx
    · exact Or.inl hx
    · exact Or.inr (Or.inl hx)
  next r3 heq =>
    split at hx
    next e6 heq6 =>
      simp at hx
      rcases hx with hx | hx | hx | hx | hx
      · exact Or.inl hx
      · exact Or.inr (Or.inl hx)
      · exact Or.inr (Or.inr (Or.inl ⟨r3, heq, hx⟩))
      · exact Or.inr (Or.inr (Or.inr (Or.inl hx)))
      · exact Or.inr (Or.inr (Or.inr (Or.inr (Or.inl hx))))
    next w6 heq6 =>
      simp at hx
      rcases hx with hx | hx | hx | hx | hx | hx | hx
      · exact Or.inl hx
      · exact Or.inr (Or.inl hx)
      · exact Or.inr (Or.inr (Or.inl ⟨r3, heq, hx⟩))
      · exact Or.inr (Or.inr (Or.inr (Or.inl hx)))
      · exact Or.inr (Or.inr (Or.inr (Or.inr (Or.inl hx))))
      · exact Or.inr (Or.inr (Or.inr (Or.inr (Or.inr (Or.inl ⟨w6, heq6, hx⟩)))))
      · exact Or.inr (Or.inr (Or.inr (Or.inr (Or.inr (Or.inr hx)))))

lemma set_state_core (st : CamState) (p : CameraProperties) :
    (EGCamera.set st p).state.settings.exposure_time_us =
      (maybe_set_exposure_time_us_ st.caps p.exposure_time_us
        st.settings.exposure_time_us).1
  ∧ (EGCamera.set st p).state.settings.binning =
      (maybe_set_binning st.caps p.binning st.settings.binning).1
  ∧ (EGCamera.set st p).state.settings.frame_start = st.settings.frame_start
  ∧ (EGCamera.set st p).state.caps = st.caps
  ∧ (EGCamera.set st p).state.frame_id = st.frame_id := by
  simp only [EGCamera.set]
  split
  next e3 heq => exact ⟨rfl, rfl, rfl, rfl, rfl⟩
  next r3 heq =>
    split
    next e6 heq6 => exact ⟨rfl, rfl, rfl, rfl, rfl⟩
    next w6 heq6 => exact ⟨rfl, rfl, rfl, rfl, rfl⟩

lemma set_w12_subset (st : CamState) (p : CameraProperties) :
    (∀ x ∈ (maybe_set_exposure_time_us_ st.caps p.exposure_time_us
        st.settings.exposure_time_us).2, x ∈ (EGCamera.set st p).writes)
  ∧ (∀ x ∈ (maybe_set_binning st.caps p.binning st.settings.binning).2,
      x ∈ (EGCamera.set st p).writes) := by
  simp only [EGCamera.set]
  split
  next e3 heq =>
    constructor <;> intro x hx <;> simp [hx]
  next r3 heq =>
    split
    next e6 heq6 =>
      constructor <;> intro x hx <;> simp [hx]
    next w6 heq6 =>
      constructor <;> intro x hx <;> simp [hx]

lemma set_eq_px_err {st : CamState} {p : CameraProperties} {e3 : CamErr}
    (heq : maybe_set_px_type p.pixel_type st.settings.pixel_type =
      .error e3) :
    EGCamera.set st p =
      { state := { st with settings := { st.settings with
            exposure_time_us := (maybe_set_exposure_time_us_ st.caps
              p.exposure_time_us st.settings.exposure_time_us).1,
            binning :=
              (maybe_set_binning st.caps p.binning st.settings.binning).1 } },
        writes := (maybe_set_exposure_time_us_ st.caps p.exposure_time_us
            st.settings.exposure_time_us).2 ++
          (maybe_set_binning st.caps p.binning st.settings.binning).2,
        err := some e3 } := by
  simp only [EGCamera.set, heq]

lemma set_eq_trig_err {st : CamState} {p : CameraProperties}
    {r3 : SampleType × List HWWrite} {e6 : CamErr}
    (heq : maybe_set_px_type p.pixel_type st.settings.pixel_type = .ok r3)
    (heq6 : maybe_set_trigger p.frame_start st.settings.frame_start =
      .error e6) :
    EGCamera.set st p =
      { state := { st with settings := { st.settings with
            exposure_time_us := (maybe_set_exposure_time_us_ st.caps
              p.exposure_time_us st.settings.exposure_time_us).1,
            binning :=
              (maybe_set_binning st.caps p.binning st.settings.binning).1,
            pixel_type := r3.1,
            offset :=
              (maybe_set_offset st.caps p.offset st.settings.offset).1,
            shape :=
              (maybe_set_shape st.caps p.shape st.settings.shape).1 } },
        writes := (maybe_set_exposure_time_us_ st.caps p.exposure_time_us
            st.settings.exposure_time_us).2 ++
          (maybe_set_binning st.caps p.binning st.settings.binning).2 ++
          r3.2 ++
          (maybe_set_offset st.caps p.offset st.settings.offset).2 ++
          (maybe_set_shape st.caps p.shape st.settings.shape).2,
        err := some e6 } := by
  simp only [EGCamera.set, heq, heq6]

lemma set_eq_ok {st : CamState} {p : CameraProperties}
    {r3 : SampleType × List HWWrite} {w6 : List HWWrite}
    (heq : maybe_set_px_type p.pixel_type st.settings.pixel_type = .ok r3)
    (heq6 : maybe_set_trigger p.frame_start st.settings.frame_start =
      .ok w6) :
    EGCamera.set st p =
      { state := { st with settings := { st.settings with
            exposure_time_us := (maybe_set_exposure_time_us_ st.caps
              p.exposure_time_us st.settings.exposure_time_us).1,
            binning :=
              (maybe_set_binning st.caps p.binning st.settings.binning).1,
            pixel_type := r3.1,
            offset :=
              (maybe_set_offset st.caps p.offset st.settings.offset).1,
            shape :=
              (maybe_set_shape st.caps p.shape st.settings.shape).1 } },
        writes := (maybe_set_exposure_time_us_ st.caps p.exposure_time_us
            st.settings.exposure_time_us).2 ++
          (maybe_set_binning st.caps p.binning st.settings.binning).2 ++
          r3.2 ++
          (maybe_set_offset st.caps p.offset st.settings.offset).2 ++
          (maybe_set_shape st.caps p.shape st.settings.shape).2 ++
          w6 ++ [HWWrite.reallocBuffers NBUFFERS],
        err := none } := by
  simp only [EGCamera.set, heq, heq6]

lemma set_ok_parts (st : CamState) (p : CameraProperties)
    (h : (EGCamera.set st p).err = none) :
    (∃ r3, maybe_set_px_type p.pixel_type st.settings.pixel_type = .ok r3 ∧
       (EGCamera.set st p).state.settings.pixel_type = r3.1 ∧
       ∀ x ∈ r3.2, x ∈ (EGCamera.set st p).writes)
  ∧ ((EGCamera.set st p).state.settings.offset =
       (maybe_set_offset st.caps p.offset st.settings.offset).1)
  ∧ ((EGCamera.set st p).state.settings.shape =
       (maybe_set_shape st.caps p.shape st.settings.shape).1)
  ∧ (∀ x ∈ (maybe_set_offset st.caps p.offset st.settings.offset).2,
       x ∈ (EGCamera.set st p).writes)
  ∧ (∀ x ∈ (maybe_set_shape st.caps p.shape st.settings.shape).2,
       x ∈ (EGCamera.set st p).writes)
  ∧ (∃ w6, maybe_set_trigger p.frame_start st.settings.frame_start = .ok w6)
  ∧ (EGCamera.set st p).writes.getLast? =
      some (HWWrite.reallocBuffers NBUFFERS) := by
  rcases h3 : maybe_set_px_type p.pixel_type st.settings.pixel_type
    with e3 | r3
  · rw [set_eq_px_err h3] at h
    simp at h
  rcases h6 : maybe_set_trigger p.frame_start st.settings.frame_start
    with e6 | w6
  · rw [set_eq_trig_err h3 h6] at h
    simp at h
  rw [set_eq_ok h3 h6]
  refine ⟨⟨r3, rfl, rfl, ?_⟩, rfl, rfl, ?_, ?_, ⟨w6, rfl⟩, ?_⟩
  · intro x hx
    simp [hx]
  · intro x hx
    simp [hx]
  · intro x hx
    simp [hx]
  · rw [List.getLast?_concat]

lemma set_err_no_realloc (st : CamState) (p : CameraProperties)
    (h : (EGCamera.set st p).err ≠ none) :
    ∀ n, HWWrite.reallocBuffers n ∉ (EGCamera.set st p).writes := by
  intro n hmem
  rcases h3 : maybe_set_px_type p.pixel_type st.settings.pixel_type
    with e3 | r3
  · rw [set_eq_px_err h3] at hmem
    simp at hmem
    rcases hmem with hx | hx
    · rcases mem_exposure_writes hx with ⟨-, hx⟩
      simp at hx
    · rcases mem_binning_writes hx with ⟨-, -, hx | hx⟩ <;> simp at hx
  · rcases h6 : maybe_set_trigger p.frame_start st.settings.frame_start
      with e6 | w6
    · rw [set_eq_trig_err h3 h6] at hmem
      simp at hmem
      rcases hmem with hx | hx | hx | hx | hx
      · rcases mem_exposure_writes hx with ⟨-, hx⟩
        simp at hx
      · rcases mem_binning_writes hx with ⟨-, -, hx | hx⟩ <;> simp at hx
      · rcases mem_px_writes h3 hx with ⟨-, s, -, hx⟩
        simp at hx
      · rcases mem_offset_writes hx with ⟨-, hx⟩ | ⟨-, hx⟩ <;> simp at hx
      · rcases mem_shape_writes hx with ⟨-, hx⟩ | ⟨-, hx⟩ <;> simp at hx
    · rw [set_eq_ok h3 h6] at h
      simp at h

lemma set_err_of_trigger (st : CamState) (p : CameraProperties)
    {r3 : SampleType × List HWWrite} {e6 : CamErr}
    (h3 : maybe_set_px_type p.pixel_type st.settings.pixel_type = .ok r3)
    (h6 : maybe_set_trigger p.frame_start st.settings.frame_start =
      .error e6) :
    (EGCamera.set st p).err = some e6 := by
  rw [set_eq_trig_err h3 h6]

lemma set_no_trigger_writes_of_trig_err (st : CamState)
    (p : CameraProperties) {r3 : SampleType × List HWWrite} {e6 : CamErr}
    (h3 : maybe_set_px_type p.pixel_type st.settings.pixel_type = .ok r3)
    (h6 : maybe_set_trigger p.frame_start st.settings.frame_start =
      .error e6) :
    ∀ f s, (f = Feature.TriggerSource ∨ f = Feature.TriggerMode ∨
        f = Feature.TriggerActivation) →
      HWWrite.setString f s ∉ (EGCamera.set st p).writes := by
  intro f s hf hmem
  rw [set_eq_trig_err h3 h6] at hmem
  simp at hmem
  rcases hmem with hx | hx | hx | hx | hx
  · rcases mem_exposure_writes hx with ⟨-, hx⟩
    simp at hx
  · rcases mem_binning_writes hx with ⟨-, -, hx | hx⟩ <;> simp at hx
  · rcases mem_px_writes h3 hx with ⟨-, s', -, hx⟩
    simp at hx
    rcases hf with hf | hf | hf <;> rw [hf] at hx <;> simp at hx
  · rcases mem_offset_writes hx with ⟨-, hx⟩ | ⟨-, hx⟩ <;> simp at hx
  · rcases mem_shape_writes hx with ⟨-, hx⟩ | ⟨-, hx⟩ <;> simp at hx

lemma get_frame_eq_capacity {st : CamState} {nbytes : Nat}
    {buf : BufferInfo} (h1 : ¬ nbytes ≥ buf.size) :
    EGCamera.get_frame st nbytes buf =
      { info := none, state := st, bytes_copied := 0,
        err := some .capacity } := by
  simp [EGCamera.get_frame, h1]

lemma get_frame_eq_ok {st : CamState} {nbytes : Nat} {buf : BufferInfo}
    (h1 : nbytes ≥ buf.size) (h2 : buf.baseNonNull = true) :
    EGCamera.get_frame st nbytes buf =
      { info := some
          { shape :=
              { dims := { channels := 1, width := buf.width,
                          height := buf.height, planes := 1 },
                strides := { channels := 1, width := 1,
                             height := buf.width,
                             planes := buf.width * buf.height },
                sample_type := at_or px_type_table buf.pixelFormat
                  SampleType.unknown },
            hardware_timestamp := buf.timestamp_ns,
            hardware_frame_id := st.frame_id },
        state := { st with frame_id := st.frame_id + 1 },
        bytes_copied := buf.size,
        err := none } := by
  simp [EGCamera.get_frame, h1, h2]

lemma get_frame_err_state {st : CamState} {nbytes : Nat}
    {buf : BufferInfo} (h : (EGCamera.get_frame st nbytes buf).err ≠ none) :
    (EGCamera.get_frame st nbytes buf).state = st ∧
      (EGCamera.get_frame st nbytes buf).info = none ∧
      (EGCamera.get_frame st nbytes buf).bytes_copied = 0 := by
  by_cases h1 : nbytes ≥ buf.size
  · by_cases h2 : buf.baseNonNull = true
    · rw [get_frame_eq_ok h1 h2] at h
      simp at h
    · simp [EGCamera.get_frame, h1, h2]
  · rw [get_frame_eq_capacity h1]
    exact ⟨rfl, rfl, rfl⟩

lemma successes_cons_some (i : ImageInfo) (l : List (Option ImageInfo)) :
    (some i :: l).filterMap id = i :: l.filterMap id := rfl

lemma successes_cons_none (l : List (Option ImageInfo)) :
    ((none : Option ImageInfo) :: l).filterMap id = l.filterMap id := rfl

lemma runFrames_ids (calls : List (Nat × BufferInfo)) : ∀ st : CamState,
    (((runFrames st calls).1.filterMap id).map ImageInfo.hardware_frame_id
      = List.range' st.frame_id
          ((runFrames st calls).1.filterMap id).length)
  ∧ ((runFrames st calls).2.frame_id =
      st.frame_id + ((runFrames st calls).1.filterMap id).length) := by
  induction calls with
  | nil => intro st; simp [runFrames]
  | cons c rest ih =>
    intro st
    simp only [runFrames]
    by_cases h1 : c.1 ≥ c.2.size
    · by_cases h2 : c.2.baseNonNull = true
      · rw [get_frame_eq_ok h1 h2]
        rcases ih { st with frame_id := st.frame_id + 1 } with ⟨ha, hb⟩
        rw [successes_cons_some]
        constructor
        · simp only [List.map_cons, List.length_cons, List.range'_succ]
          rw [ha]
        · simp only [List.length_cons]
          simp only [show ({ st with frame_id := st.frame_id + 1 } :
              CamState).frame_id = st.frame_id + 1 from rfl] at hb
          rw [hb]
          omega
      · have h : (EGCamera.get_frame st c.1 c.2).err ≠ none := by
          simp [EGCamera.get_frame, h1, h2]
        rcases get_frame_err_state h with ⟨hs, hi, -⟩
        rw [hs, hi, successes_cons_none]
        exact ih st
    · have h : (EGCamera.get_frame st c.1 c.2).err ≠ none := by
        rw [get_frame_eq_capacity h1]
        simp
      rcases get_frame_err_state h with ⟨hs, hi, -⟩
      rw [hs, hi, successes_cons_none]
      exact ih st

lemma at_or_eq_dflt {α β : Type} [DecidableEq α] (table : List (α × β))
    (key : α) (d : β) (h : ∀ kv ∈ table, kv.1 ≠ key) :
    at_or table key d = d := by
  unfold at_or
  have hnone : table.find? (fun kv => decide (kv.1 = key)) = none := by
    rw [List.find?_eq_none]
    intro x hx
    simp [h x hx]
  rw [hnone]

lemma toNat_inj_sample {a b : SampleType} (h : a.toNat = b.toNat) :
    a = b := by
  cases a <;> cases b <;> simp_all [SampleType.toNat]

lemma query_testBit (formats : List String) (i : Nat) : ∀ acc : Nat,
    ((formats.foldl
        (fun acc v =>
          acc ||| (1 <<< (at_or px_type_table v SampleType.unknown).toNat))
        acc).testBit i) =
      (acc.testBit i ||
        formats.any
          (fun v =>
            decide ((at_or px_type_table v SampleType.unknown).toNat = i))) := by
  induction formats with
  | nil => intro acc; simp
  | cons v rest ih =>
    intro acc
    simp only [List.foldl_cons, List.any_cons]
    rw [ih]
    rw [Nat.testBit_or, Nat.one_shiftLeft, Nat.testBit_two_pow]
    rw [Bool.or_assoc]

/-- C10: `eecam_device_count` returns 0 on any internal failure — a null
driver handle (`CHECK(self_)` throws) or an SDK discovery exception — and
returns the discovered count on success; no error status or exception
crosses the boundary (the model function is total into `Nat`). -/
theorem C10_device_count_swallows_failures (d : Except CamErr Nat)
    (e : CamErr) (n : Nat) :
    eecam_device_count none d = 0
  ∧ eecam_device_count (some ()) (.error e) = 0
  ∧ eecam_device_count (some ()) (.ok n) = n :=
  ⟨rfl, rfl, rfl⟩

/-- C4: when the caller capacity is smaller than the delivered frame's byte
count, `get_frame` fails with CapacityError, copies no bytes, produces no
`ImageInfo`, and leaves the state (in particular the frame-id counter)
unchanged. -/
theorem C4_capacity_guard (st : CamState) (nbytes : Nat) (buf : BufferInfo)
    (h : nbytes < buf.size) :
    (EGCamera.get_frame st nbytes buf).err = some CamErr.capacity
  ∧ (EGCamera.get_frame st nbytes buf).bytes_copied = 0
  ∧ (EGCamera.get_frame st nbytes buf).info = none
  ∧ (EGCamera.get_frame st nbytes buf).state = st := by
  rw [get_frame_eq_capacity (by omega)]
  exact ⟨rfl, rfl, rfl, rfl⟩

/-- C4 witness: a 3-byte caller buffer against a 100-byte frame. -/
theorem C4_capacity_guard_witness :
    (EGCamera.get_frame stW 3 bufBigW).err = some CamErr.capacity
  ∧ (EGCamera.get_frame stW 3 bufBigW).bytes_copied = 0
  ∧ (EGCamera.get_frame stW 3 bufBigW).info = none
  ∧ (EGCamera.get_frame stW 3 bufBigW).state = stW :=
  C4_capacity_guard stW 3 bufBigW (by decide)

/-- C6 counterexample: an unrecognized PixelFormat string is not excluded
from the bitmask — it contributes the `SampleType_Unknown` bit, so the
mask for [Mono8, BayerRG8] differs from the mask for [Mono8] alone. -/
theorem C6_counterexample :
    query_pixel_type_capabilities ["Mono8", "BayerRG8"] ≠
      query_pixel_type_capabilities ["Mono8"] := by
  decide

/-- C6 (amended): in the supported-pixel-types bitmask built by
`query_pixel_type_capabilities_`, the bit of a sample type `st` is set
exactly when some reported format string maps to `st` under
`at_or(px_type_table_, ·, SampleType_Unknown)`.  Hence unknown strings
never set a modelled-type bit (they set only the `SampleType_Unknown`
bit) and never cause an error (the fold is total). -/
theorem C6_unknown_formats_excluded_amended (formats : List String)
    (st : SampleType) :
    (query_pixel_type_capabilities formats).testBit st.toNat = true ↔
      ∃ v ∈ formats, at_or px_type_table v SampleType.unknown = st := by
  unfold query_pixel_type_capabilities
  rw [query_testBit formats st.toNat 0]
  simp only [Nat.zero_testBit, Bool.false_or, List.any_eq_true,
    decide_eq_true_eq]
  constructor
  · rintro ⟨v, hv, heq⟩
    exact ⟨v, hv, toNat_inj_sample heq⟩
  · rintro ⟨v, hv, heq⟩
    exact ⟨v, hv, by rw [heq]⟩

/-- C5: after `start()` the frame counter is 0 and the successful results
of any following `get_frame` sequence carry hardware_frame_id values
0, 1, 2, ... in order (failed calls contribute nothing and leave the
counter unchanged; the counter advances by exactly the number of
successes). -/
theorem C5_frame_id_monotonic (st : CamState)
    (calls : List (Nat × BufferInfo)) (nbytes : Nat) (buf : BufferInfo) :
    (((runFrames (EGCamera.start st).1 calls).1.filterMap id).map
        ImageInfo.hardware_frame_id =
      List.range
        ((runFrames (EGCamera.start st).1 calls).1.filterMap id).length)
  ∧ ((runFrames (EGCamera.start st).1 calls).2.frame_id =
      ((runFrames (EGCamera.start st).1 calls).1.filterMap id).length)
  ∧ ((EGCamera.get_frame st nbytes buf).err ≠ none →
      (EGCamera.get_frame st nbytes buf).state.frame_id = st.frame_id) := by
  have h0 : (EGCamera.start st).1.frame_id = 0 := rfl
  rcases runFrames_ids calls (EGCamera.start st).1 with ⟨ha, hb⟩
  refine ⟨?_, ?_, ?_⟩
  · rw [List.range_eq_range']
    rw [h0] at ha
    exact ha
  · rw [hb, h0]
    omega
  · intro h
    rw [(get_frame_err_state h).1]

/-- C5 witness: a success, a capacity failure, then a success after
`start`: ids are [0, 1], the counter ends at 2, and the failing middle
call leaves the counter unchanged. -/
theorem C5_frame_id_monotonic_witness :
    (((runFrames (EGCamera.start stW).1 callsW).1.filterMap id).map
        ImageInfo.hardware_frame_id =
      List.range
        ((runFrames (EGCamera.start stW).1 callsW).1.filterMap id).length)
  ∧ ((runFrames (EGCamera.start stW).1 callsW).2.frame_id =
      ((runFrames (EGCamera.start stW).1 callsW).1.filterMap id).length)
  ∧ ((EGCamera.get_frame stW 3 bufBigW).state.frame_id = stW.frame_id) :=
  ⟨(C5_frame_id_monotonic stW callsW 3 bufBigW).1,
   (C5_frame_id_monotonic stW callsW 3 bufBigW).2.1,
   (C5_frame_id_monotonic stW callsW 3 bufBigW).2.2 (by decide)⟩

/-- C9: `get` returns the default frame-start trigger record
{enable = 0, line = 0, kind = Input, edge = Rising} whenever the device's
TriggerSource string is neither "Line0" nor "Software" (no error is
raised; the model `get` is total); for a recognized source, enable, line
and edge are read from the device, and an unrecognized TriggerActivation
string maps to `TriggerEdge_Unknown`.  `get` also refreshes the
last-known-settings cache with the returned record. -/
theorem C9_get_trigger_fallback (st : CamState) (dev : DeviceReadings) :
    (dev.triggerSource ≠ "Line0" → dev.triggerSource ≠ "Software" →
      (EGCamera.get st dev).1.frame_start = dflt)
  ∧ (dev.triggerSource = "Line0" →
      (EGCamera.get st dev).1.frame_start =
        { enable := dev.triggerMode % 256, line := 0, kind := .input,
          edge := at_or trig_edge_table dev.triggerActivation
            TriggerEdge.unknown })
  ∧ (dev.triggerSource = "Software" →
      (EGCamera.get st dev).1.frame_start =
        { enable := dev.triggerMode % 256, line := 1, kind := .input,
          edge := at_or trig_edge_table dev.triggerActivation
            TriggerEdge.unknown })
  ∧ (∀ a, a ∉ ["RisingEdge", "FallingEdge", "AnyEdge", "LevelHigh",
        "LevelLow"] →
      at_or trig_edge_table a TriggerEdge.unknown = TriggerEdge.unknown)
  ∧ ((EGCamera.get st dev).2.settings = (EGCamera.get st dev).1) := by
  refine ⟨?_, ?_, ?_, ?_, rfl⟩
  · intro h0 h1
    have hsrc : at_or trig_src_table dev.triggerSource TrigSrc.unknown =
        .unknown := by
      apply at_or_eq_dflt
      intro kv hkv
      simp [trig_src_table] at hkv
      rcases hkv with h | h
      · rw [h]
        intro hh
        exact h0 hh.symm
      · rw [h]
        intro hh
        exact h1 hh.symm
    simp [EGCamera.get, hsrc]
  · intro h
    have hsrc : at_or trig_src_table dev.triggerSource TrigSrc.unknown =
        .line0 := by
      rw [h]
      decide
    simp [EGCamera.get, hsrc, TrigSrc.toNat]
  · intro h
    have hsrc : at_or trig_src_table dev.triggerSource TrigSrc.unknown =
        .software := by
      rw [h]
      decide
    simp [EGCamera.get, hsrc, TrigSrc.toNat]
  · intro a ha
    apply at_or_eq_dflt
    intro kv hkv
    simp [trig_edge_table] at hkv
    simp only [List.mem_cons, List.not_mem_nil, or_false, not_or] at ha
    rcases hkv with h | h | h | h | h <;> rw [h] <;> intro hh <;> simp_all

/-- C9 witness: an unrecognized source falls back to the default record;
a Line0 source reads the device values with an unrecognized activation
mapping to Unknown. -/
theorem C9_get_trigger_fallback_witness :
    (EGCamera.get stW devFooW).1.frame_start = dflt
  ∧ (EGCamera.get stW devLine0W).1.frame_start =
      { enable := devLine0W.triggerMode % 256, line := 0, kind := .input,
        edge := at_or trig_edge_table devLine0W.triggerActivation
          TriggerEdge.unknown }
  ∧ at_or trig_edge_table "Bogus" TriggerEdge.unknown =
      TriggerEdge.unknown :=
  ⟨(C9_get_trigger_fallback stW devFooW).1 (by decide) (by decide),
   (C9_get_trigger_fallback stW devLine0W).2.1 (by decide),
   (C9_get_trigger_fallback stW devLine0W).2.2.2.1 "Bogus" (by decide)⟩

/-- C3: an invalid trigger update (line not in {0,1}, or edge not in
{Rising, Falling}, or enable not in {0,1}) that differs from the cached
record makes `set` fail with ValidationError, leaves the cached Trigger
record unchanged, and issues no trigger hardware write.  The pixel-type
step is assumed to succeed (`pxOk`), i.e. `set` actually reaches the
trigger step; the source processes fields in a fixed order, so a run that
throws earlier never attempts the trigger update at all. -/
theorem C3_trigger_atomicity (st : CamState) (p : CameraProperties)
    (hpx : pxOk p.pixel_type st.settings.pixel_type = true)
    (hne : p.frame_start ≠ st.settings.frame_start)
    (hbad : ¬ (p.frame_start.line < 2 ∧ p.frame_start.edge.toNat < 2 ∧
      p.frame_start.enable < 2)) :
    (EGCamera.set st p).err = some CamErr.validation
  ∧ (EGCamera.set st p).state.settings.frame_start =
      st.settings.frame_start
  ∧ (∀ f s, (f = Feature.TriggerSource ∨ f = Feature.TriggerMode ∨
      f = Feature.TriggerActivation) →
      HWWrite.setString f s ∉ (EGCamera.set st p).writes) := by
  obtain ⟨r3, h3⟩ :
      ∃ r3, maybe_set_px_type p.pixel_type st.settings.pixel_type =
        .ok r3 := by
    unfold pxOk at hpx
    rcases h : maybe_set_px_type p.pixel_type st.settings.pixel_type
      with e | r
    · rw [h] at hpx
      simp at hpx
    · exact ⟨r, rfl⟩
  have h6 := trigger_invalid hne hbad
  exact ⟨set_err_of_trigger st p h3 h6, (set_state_core st p).2.2.1,
    set_no_trigger_writes_of_trig_err st p h3 h6⟩

/-- C3 witness: a trigger update with line = 2 against the concrete
state. -/
theorem C3_trigger_atomicity_witness :
    (EGCamera.set stW propsC3).err = some CamErr.validation
  ∧ (EGCamera.set stW propsC3).state.settings.frame_start =
      stW.settings.frame_start
  ∧ HWWrite.setString Feature.TriggerSource "Line0" ∉
      (EGCamera.set stW propsC3).writes :=
  ⟨(C3_trigger_atomicity stW propsC3 (by decide) (by decide)
      (by decide)).1,
   (C3_trigger_atomicity stW propsC3 (by decide) (by decide)
      (by decide)).2.1,
   (C3_trigger_atomicity stW propsC3 (by decide) (by decide)
      (by decide)).2.2 Feature.TriggerSource "Line0" (Or.inl rfl)⟩

/-- C7 counterexample: a `set` whose trigger validation fails issues no
buffer-pool reallocation at all — refuting the claim that the
reallocation runs even when a field's validation fails. -/
theorem C7_counterexample :
    (EGCamera.set stW propsC3).err ≠ none
  ∧ HWWrite.reallocBuffers NBUFFERS ∉ (EGCamera.set stW propsC3).writes := by
  have h3 : maybe_set_px_type propsC3.pixel_type stW.settings.pixel_type =
      .ok (SampleType.u8, []) := rfl
  have h6 : maybe_set_trigger propsC3.frame_start
      stW.settings.frame_start = .error .validation := rfl
  have herr : (EGCamera.set stW propsC3).err ≠ none := by
    rw [set_eq_trig_err h3 h6]
    simp
  exact ⟨herr, set_err_no_realloc stW propsC3 herr NBUFFERS⟩

/-- C7 (amended): the buffer pool is reallocated to `NBUFFERS` as the last
hardware action of every `set` that completes without a validation/CHECK
failure — in particular also when no field changed; but a `set` aborted by
a field failure issues no reallocation. -/
theorem C7_realloc_amended (st : CamState) (p : CameraProperties) :
    ((EGCamera.set st p).err = none →
      (EGCamera.set st p).writes.getLast? =
        some (HWWrite.reallocBuffers NBUFFERS))
  ∧ ((EGCamera.set st p).err ≠ none →
      ∀ n, HWWrite.reallocBuffers n ∉ (EGCamera.set st p).writes) := by
  constructor
  · intro h
    exact (set_ok_parts st p h).2.2.2.2.2.2
  · exact set_err_no_realloc st p

/-- C7 witness: a fully-unchanged `set` still ends with the reallocation;
a `set` failing trigger validation performs none. -/
theorem C7_realloc_amended_witness :
    (EGCamera.set stW settingsW).writes.getLast? =
      some (HWWrite.reallocBuffers NBUFFERS)
  ∧ HWWrite.reallocBuffers NBUFFERS ∉ (EGCamera.set stW propsC3).writes :=
  ⟨(C7_realloc_amended stW settingsW).1 (by
      have h3 : maybe_set_px_type settingsW.pixel_type
          stW.settings.pixel_type = .ok (SampleType.u8, []) := rfl
      have h6 : maybe_set_trigger settingsW.frame_start
          stW.settings.frame_start = .ok [] := rfl
      rw [set_eq_ok h3 h6]),
   (C7_realloc_amended stW propsC3).2 (by
      have h3 : maybe_set_px_type propsC3.pixel_type
          stW.settings.pixel_type = .ok (SampleType.u8, []) := rfl
      have h6 : maybe_set_trigger propsC3.frame_start
          stW.settings.frame_start = .error .validation := rfl
      rw [set_eq_trig_err h3 h6]
      simp) NBUFFERS⟩

/-- C8: when the desired binning differs from the cached binning but the
capability cache marks binning as not writable, `set` issues no binning
hardware write yet still caches the clamped target value. -/
theorem C8_binning_unwritable (st : CamState) (p : CameraProperties)
    (hne : p.binning ≠ st.settings.binning)
    (hw : st.caps.binning.writable = false) :
    (EGCamera.set st p).state.settings.binning =
      clampU p.binning st.caps.binning.low st.caps.binning.high
  ∧ (∀ v, HWWrite.setInteger Feature.BinningHorizontal v ∉
      (EGCamera.set st p).writes)
  ∧ (∀ v, HWWrite.setInteger Feature.BinningVertical v ∉
      (EGCamera.set st p).writes) := by
  refine ⟨?_, ?_, ?_⟩
  · rw [(set_state_core st p).2.1, binning_fst, if_pos hne]
  · intro v hmem
    rcases mem_set_writes hmem with
      hx | hx | ⟨r3, h3, hx⟩ | hx | hx | ⟨w6, h6, hx⟩ | hx
    · rcases mem_exposure_writes hx with ⟨-, hx⟩
      simp at hx
    · rcases mem_binning_writes hx with ⟨-, hwt, -⟩
      rw [hw] at hwt
      simp at hwt
    · rcases mem_px_writes h3 hx with ⟨-, s, -, hx⟩
      simp at hx
    · rcases mem_offset_writes hx with ⟨-, hx⟩ | ⟨-, hx⟩ <;> simp at hx
    · rcases mem_shape_writes hx with ⟨-, hx⟩ | ⟨-, hx⟩ <;> simp at hx
    · rcases mem_trigger_writes h6 hx with ⟨-, f, s, -, hx⟩
      simp at hx
    · simp at hx
  · intro v hmem
    rcases mem_set_writes hmem with
      hx | hx | ⟨r3, h3, hx⟩ | hx | hx | ⟨w6, h6, hx⟩ | hx
    · rcases mem_exposure_writes hx with ⟨-, hx⟩
      simp at hx
    · rcases mem_binning_writes hx with ⟨-, hwt, -⟩
      rw [hw] at hwt
      simp at hwt
    · rcases mem_px_writes h3 hx with ⟨-, s, -, hx⟩
      simp at hx
    · rcases mem_offset_writes hx with ⟨-, hx⟩ | ⟨-, hx⟩ <;> simp at hx
    · rcases mem_shape_writes hx with ⟨-, hx⟩ | ⟨-, hx⟩ <;> simp at hx
    · rcases mem_trigger_writes h6 hx with ⟨-, f, s, -, hx⟩
      simp at hx
    · simp at hx

/-- C8 witness: binning 1 → 3 with an unwritable binning capability:
the cache becomes 3 (the in-range clamp of 3) and no binning write is
issued. -/
theorem C8_binning_unwritable_witness :
    (EGCamera.set stNW propsC8).state.settings.binning =
      clampU propsC8.binning stNW.caps.binning.low stNW.caps.binning.high
  ∧ HWWrite.setInteger Feature.BinningHorizontal 3 ∉
      (EGCamera.set stNW propsC8).writes :=
  ⟨(C8_binning_unwritable stNW propsC8 (by decide) (by decide)).1,
   (C8_binning_unwritable stNW propsC8 (by decide) (by decide)).2.1 3⟩

/-- C2: when a property's desired value equals the cached last-known value
(within `1e-9` for the float-valued exposure time; exact equality
elsewhere, byte-for-byte for the trigger record), `set` issues zero
hardware writes for that property. -/
theorem C2_noop_idempotence (st : CamState) (p : CameraProperties) :
    ((|p.exposure_time_us - st.settings.exposure_time_us| ≤ eps) →
      ∀ v, HWWrite.setFloat Feature.ExposureTime v ∉
        (EGCamera.set st p).writes)
  ∧ ((p.binning = st.settings.binning) →
      ∀ v, HWWrite.setInteger Feature.BinningHorizontal v ∉
          (EGCamera.set st p).writes ∧
        HWWrite.setInteger Feature.BinningVertical v ∉
          (EGCamera.set st p).writes)
  ∧ ((p.pixel_type = st.settings.pixel_type) →
      ∀ s, HWWrite.setString Feature.PixelFormat s ∉
        (EGCamera.set st p).writes)
  ∧ ((p.offset.x = st.settings.offset.x) →
      ∀ v, HWWrite.setInteger Feature.OffsetX v ∉
        (EGCamera.set st p).writes)
  ∧ ((p.offset.y = st.settings.offset.y) →
      ∀ v, HWWrite.setInteger Feature.OffsetY v ∉
        (EGCamera.set st p).writes)
  ∧ ((p.shape.x = st.settings.shape.x) →
      ∀ v, HWWrite.setInteger Feature.Width v ∉
        (EGCamera.set st p).writes)
  ∧ ((p.shape.y = st.settings.shape.y) →
      ∀ v, HWWrite.setInteger Feature.Height v ∉
        (EGCamera.set st p).writes)
  ∧ ((p.frame_start = st.settings.frame_start) →
      ∀ f s, (f = Feature.TriggerSource ∨ f = Feature.TriggerMode ∨
          f = Feature.TriggerActivation) →
        HWWrite.setString f s ∉ (EGCamera.set st p).writes) := by
  refine ⟨?_, ?_, ?_, ?_, ?_, ?_, ?_, ?_⟩
  · intro hle v hmem
    rcases mem_set_writes hmem with
      hx | hx | ⟨r3, h3, hx⟩ | hx | hx | ⟨w6, h6, hx⟩ | hx
    · rcases mem_exposure_writes hx with ⟨hgt, -⟩
      exact absurd hgt (not_lt.mpr hle)
    · rcases mem_binning_writes hx with ⟨-, -, hx | hx⟩ <;> simp at hx
    · rcases mem_px_writes h3 hx with ⟨-, s, -, hx⟩
      simp at hx
    · rcases mem_offset_writes hx with ⟨-, hx⟩ | ⟨-, hx⟩ <;> simp at hx
    · rcases mem_shape_writes hx with ⟨-, hx⟩ | ⟨-, hx⟩ <;> simp at hx
    · rcases mem_trigger_writes h6 hx with ⟨-, f, s, -, hx⟩
      simp at hx
    · simp at hx
  · intro heq v
    constructor
    all_goals
      intro hmem
      rcases mem_set_writes hmem with
        hx | hx | ⟨r3, h3, hx⟩ | hx | hx | ⟨w6, h6, hx⟩ | hx
      · rcases mem_exposure_writes hx with ⟨-, hx⟩
        simp at hx
      · rcases mem_binning_writes hx with ⟨hne, -, -⟩
        exact hne heq
      · rcases mem_px_writes h3 hx with ⟨-, s, -, hx⟩
        simp at hx
      · rcases mem_offset_writes hx with ⟨-, hx⟩ | ⟨-, hx⟩ <;> simp at hx
      · rcases mem_shape_writes hx with ⟨-, hx⟩ | ⟨-, hx⟩ <;> simp at hx
      · rcases mem_trigger_writes h6 hx with ⟨-, f, s, -, hx⟩
        simp at hx
      · simp at hx
  · intro heq s hmem
    rcases mem_set_writes hmem with
      hx | hx | ⟨r3, h3, hx⟩ | hx | hx | ⟨w6, h6, hx⟩ | hx
    · rcases mem_exposure_writes hx with ⟨-, hx⟩
      simp at hx
    · rcases mem_binning_writes hx with ⟨-, -, hx | hx⟩ <;> simp at hx
    · rcases mem_px_writes h3 hx with ⟨hne, s', -, hx⟩
      exact hne heq
    · rcases mem_offset_writes hx with ⟨-, hx⟩ | ⟨-, hx⟩ <;> simp at hx
    · rcases mem_shape_writes hx with ⟨-, hx⟩ | ⟨-, hx⟩ <;> simp at hx
    · rcases mem_trigger_writes h6 hx with ⟨-, f, s', hf, hx⟩
      rcases hf with hf | hf | hf <;> rw [hf] at hx <;> simp at hx
    · simp at hx
  · intro heq v hmem
    rcases mem_set_writes hmem with
      hx | hx | ⟨r3, h3, hx⟩ | hx | hx | ⟨w6, h6, hx⟩ | hx
    · rcases mem_exposure_writes hx with ⟨-, hx⟩
      simp at hx
    · rcases mem_binning_writes hx with ⟨-, -, hx | hx⟩ <;> simp at hx
    · rcases mem_px_writes h3 hx with ⟨-, s, -, hx⟩
      simp at hx
    · rcases mem_offset_writes hx with ⟨hne, hx⟩ | ⟨-, hx⟩
      · exact hne heq
      · simp at hx
    · rcases mem_shape_writes hx with ⟨-, hx⟩ | ⟨-, hx⟩ <;> simp at hx
    · rcases mem_trigger_writes h6 hx with ⟨-, f, s, -, hx⟩
      simp at hx
    · simp at hx
  · intro heq v hmem
    rcases mem_set_writes hmem with
      hx | hx | ⟨r3, h3, hx⟩ | hx | hx | ⟨w6, h6, hx⟩ | hx
    · rcases mem_exposure_writes hx with ⟨-, hx⟩
      simp at hx
    · rcases mem_binning_writes hx with ⟨-, -, hx | hx⟩ <;> simp at hx
    · rcases mem_px_writes h3 hx with ⟨-, s, -, hx⟩
      simp at hx
    · rcases mem_offset_writes hx with ⟨-, hx⟩ | ⟨hne, hx⟩
      · simp at hx
      · exact hne heq
    · rcases mem_shape_writes hx with ⟨-, hx⟩ | ⟨-, hx⟩ <;> simp at hx
    · rcases mem_trigger_writes h6 hx with ⟨-, f, s, -, hx⟩
      simp at hx
    · simp at hx
  · intro heq v hmem
    rcases mem_set_writes hmem with
      hx | hx | ⟨r3, h3, hx⟩ | hx | hx | ⟨w6, h6, hx⟩ | hx
    · rcases mem_exposure_writes hx with ⟨-, hx⟩
      simp at hx
    · rcases mem_binning_writes hx with ⟨-, -, hx | hx⟩ <;> simp at hx
    · rcases mem_px_writes h3 hx with ⟨-, s, -, hx⟩
      simp at hx
    · rcases mem_offset_writes hx with ⟨-, hx⟩ | ⟨-, hx⟩ <;> simp at hx
    · rcases mem_shape_writes hx with ⟨hne, hx⟩ | ⟨-, hx⟩
      · exact hne heq
      · simp at hx
    · rcases mem_trigger_writes h6 hx with ⟨-, f, s, -, hx⟩
      simp at hx
    · simp at hx
  · intro heq v hmem
    rcases mem_set_writes hmem with
      hx | hx | ⟨r3, h3, hx⟩ | hx | hx | ⟨w6, h6, hx⟩ | hx
    · rcases mem_exposure_writes hx with ⟨-, hx⟩
      simp at hx
    · rcases mem_binning_writes hx with ⟨-, -, hx | hx⟩ <;> simp at hx
    · rcases mem_px_writes h3 hx with ⟨-, s, -, hx⟩
      simp at hx
    · rcases mem_offset_writes hx with ⟨-, hx⟩ | ⟨-, hx⟩ <;> simp at hx
    · rcases mem_shape_writes hx with ⟨-, hx⟩ | ⟨hne, hx⟩
      · simp at hx
      · exact hne heq
    · rcases mem_trigger_writes h6 hx with ⟨-, f, s, -, hx⟩
      simp at hx
    · simp at hx
  · intro heq f s hf hmem
    rcases mem_set_writes hmem with
      hx | hx | ⟨r3, h3, hx⟩ | hx | hx | ⟨w6, h6, hx⟩ | hx
    · rcases mem_exposure_writes hx with ⟨-, hx⟩
      simp at hx
    · rcases mem_binning_writes hx with ⟨-, -, hx | hx⟩ <;> simp at hx
    · rcases mem_px_writes h3 hx with ⟨-, s', -, hx⟩
      rcases hf with hf | hf | hf <;> rw [hf] at hx <;> simp at hx
    · rcases mem_offset_writes hx with ⟨-, hx⟩ | ⟨-, hx⟩ <;> simp at hx
    · rcases mem_shape_writes hx with ⟨-, hx⟩ | ⟨-, hx⟩ <;> simp at hx
    · rcases mem_trigger_writes h6 hx with ⟨hne, -⟩
      exact hne heq
    · simp at hx

/-- C2 witness: a `set` whose desired properties equal the cached state
issues none of the per-property hardware writes. -/
theorem C2_noop_idempotence_witness :
    HWWrite.setFloat Feature.ExposureTime 55 ∉
      (EGCamera.set stW settingsW).writes
  ∧ HWWrite.setInteger Feature.BinningHorizontal 2 ∉
      (EGCamera.set stW settingsW).writes
  ∧ HWWrite.setString Feature.PixelFormat "Mono8" ∉
      (EGCamera.set stW settingsW).writes
  ∧ HWWrite.setInteger Feature.OffsetX 5 ∉
      (EGCamera.set stW settingsW).writes
  ∧ HWWrite.setInteger Feature.OffsetY 5 ∉
      (EGCamera.set stW settingsW).writes
  ∧ HWWrite.setInteger Feature.Width 5 ∉
      (EGCamera.set stW settingsW).writes
  ∧ HWWrite.setInteger Feature.Height 5 ∉
      (EGCamera.set stW settingsW).writes
  ∧ HWWrite.setString Feature.TriggerSource "Line0" ∉
      (EGCamera.set stW settingsW).writes :=
  ⟨(C2_noop_idempotence stW settingsW).1
     (by norm_num [stW, settingsW, eps]) 55,
   ((C2_noop_idempotence stW settingsW).2.1 (by decide) 2).1,
   (C2_noop_idempotence stW settingsW).2.2.1 (by decide) "Mono8",
   (C2_noop_idempotence stW settingsW).2.2.2.1 (by decide) 5,
   (C2_noop_idempotence stW settingsW).2.2.2.2.1 (by decide) 5,
   (C2_noop_idempotence stW settingsW).2.2.2.2.2.1 (by decide) 5,
   (C2_noop_idempotence stW settingsW).2.2.2.2.2.2.1 (by decide) 5,
   (C2_noop_idempotence stW settingsW).2.2.2.2.2.2.2 (by decide)
     Feature.TriggerSource "Line0" (Or.inl rfl)⟩

/-- C1: for each numeric property whose desired value differs from the
cache (by more than the `1e-9` float epsilon for exposure; exact
inequality for the integer properties) and lies outside the cached
capability range, a completing `set` caches exactly
`clamp(target, low, high)`, the hardware write for that property carries
the clamped value, and no write for that property ever carries any other
value (in particular never the raw target).  For binning the write pair is
issued only when the capability cache marks binning writable; the clamped
value is cached either way. -/
theorem C1_clamping (st : CamState) (p : CameraProperties)
    (hok : (EGCamera.set st p).err = none) :
    ((|p.exposure_time_us - st.settings.exposure_time_us| > eps) →
      (p.exposure_time_us < st.caps.exposure_time_us.low ∨
        st.caps.exposure_time_us.high < p.exposure_time_us) →
      ((EGCamera.set st p).state.settings.exposure_time_us =
          clampF p.exposure_time_us st.caps.exposure_time_us.low
            st.caps.exposure_time_us.high
        ∧ HWWrite.setFloat Feature.ExposureTime
            (clampF p.exposure_time_us st.caps.exposure_time_us.low
              st.caps.exposure_time_us.high) ∈ (EGCamera.set st p).writes
        ∧ ∀ v, HWWrite.setFloat Feature.ExposureTime v ∈
            (EGCamera.set st p).writes →
            v = clampF p.exposure_time_us st.caps.exposure_time_us.low
              st.caps.exposure_time_us.high))
  ∧ ((p.binning ≠ st.settings.binning) →
      ((p.binning : ℚ) < st.caps.binning.low ∨
        st.caps.binning.high < (p.binning : ℚ)) →
      ((EGCamera.set st p).state.settings.binning =
          clampU p.binning st.caps.binning.low st.caps.binning.high
        ∧ (st.caps.binning.writable = true →
            HWWrite.setInteger Feature.BinningHorizontal
              (clampU p.binning st.caps.binning.low st.caps.binning.high) ∈
              (EGCamera.set st p).writes ∧
            HWWrite.setInteger Feature.BinningVertical
              (clampU p.binning st.caps.binning.low st.caps.binning.high) ∈
              (EGCamera.set st p).writes)
        ∧ ∀ v, (HWWrite.setInteger Feature.BinningHorizontal v ∈
              (EGCamera.set st p).writes ∨
            HWWrite.setInteger Feature.BinningVertical v ∈
              (EGCamera.set st p).writes) →
            v = clampU p.binning st.caps.binning.low st.caps.binning.high))
  ∧ ((p.offset.x ≠ st.settings.offset.x) →
      ((p.offset.x : ℚ) < st.caps.offset.x.low ∨
        st.caps.offset.x.high < (p.offset.x : ℚ)) →
      ((EGCamera.set st p).state.settings.offset.x =
          clampU p.offset.x st.caps.offset.x.low st.caps.offset.x.high
        ∧ HWWrite.setInteger Feature.OffsetX
            (clampU p.offset.x st.caps.offset.x.low
              st.caps.offset.x.high) ∈ (EGCamera.set st p).writes
        ∧ ∀ v, HWWrite.setInteger Feature.OffsetX v ∈
            (EGCamera.set st p).writes →
            v = clampU p.offset.x st.caps.offset.x.low
              st.caps.offset.x.high))
  ∧ ((p.offset.y ≠ st.settings.offset.y) →
      ((p.offset.y : ℚ) < st.caps.offset.y.low ∨
        st.caps.offset.y.high < (p.offset.y : ℚ)) →
      ((EGCamera.set st p).state.settings.offset.y =
          clampU p.offset.y st.caps.offset.y.low st.caps.offset.y.high
        ∧ HWWrite.setInteger Feature.OffsetY
            (clampU p.offset.y st.caps.offset.y.low
              st.caps.offset.y.high) ∈ (EGCamera.set st p).writes
        ∧ ∀ v, HWWrite.setInteger Feature.OffsetY v ∈
            (EGCamera.set st p).writes →
            v = clampU p.offset.y st.caps.offset.y.low
              st.caps.offset.y.high))
  ∧ ((p.shape.x ≠ st.settings.shape.x) →
      ((p.shape.x : ℚ) < st.caps.shape.x.low ∨
        st.caps.shape.x.high < (p.shape.x : ℚ)) →
      ((EGCamera.set st p).state.settings.shape.x =
          clampU p.shape.x st.caps.shape.x.low st.caps.shape.x.high
        ∧ HWWrite.setInteger Feature.Width
            (clampU p.shape.x st.caps.shape.x.low
              st.caps.shape.x.high) ∈ (EGCamera.set st p).writes
        ∧ ∀ v, HWWrite.setInteger Feature.Width v ∈
            (EGCamera.set st p).writes →
            v = clampU p.shape.x st.caps.shape.x.low
              st.caps.shape.x.high))
  ∧ ((p.shape.y ≠ st.settings.shape.y) →
      ((p.shape.y : ℚ) < st.caps.shape.y.low ∨
        st.caps.shape.y.high < (p.shape.y : ℚ)) →
      ((EGCamera.set st p).state.settings.shape.y =
          clampU p.shape.y st.caps.shape.y.low st.caps.shape.y.high
        ∧ HWWrite.setInteger Feature.Height
            (clampU p.shape.y st.caps.shape.y.low
              st.caps.shape.y.high) ∈ (EGCamera.set st p).writes
        ∧ ∀ v, HWWrite.setInteger Feature.Height v ∈
            (EGCamera.set st p).writes →
            v = clampU p.shape.y st.caps.shape.y.low
              st.caps.shape.y.high)) := by
  refine ⟨?_, ?_, ?_, ?_, ?_, ?_⟩
  · intro hdiff hout
    refine ⟨?_, ?_, ?_⟩
    · rw [(set_state_core st p).1, exposure_fst, if_pos hdiff]
    · exact (set_w12_subset st p).1 _
        (by rw [exposure_snd, if_pos hdiff]; simp)
    · intro v hv
      rcases mem_set_writes hv with
        hx | hx | ⟨r3, h3, hx⟩ | hx | hx | ⟨w6, h6, hx⟩ | hx
      · rcases mem_exposure_writes hx with ⟨-, hx⟩
        simpa using hx
      · rcases mem_binning_writes hx with ⟨-, -, hx | hx⟩ <;> simp at hx
      · rcases mem_px_writes h3 hx with ⟨-, s, -, hx⟩
        simp at hx
      · rcases mem_offset_writes hx with ⟨-, hx⟩ | ⟨-, hx⟩ <;> simp at hx
      · rcases mem_shape_writes hx with ⟨-, hx⟩ | ⟨-, hx⟩ <;> simp at hx
      · rcases mem_trigger_writes h6 hx with ⟨-, f, s, -, hx⟩
        simp at hx
      · simp at hx
  · intro hne hout
    refine ⟨?_, ?_, ?_⟩
    · rw [(set_state_core st p).2.1, binning_fst, if_pos hne]
    · intro hwr
      constructor
      · exact (set_w12_subset st p).2 _
          (by rw [binning_snd, if_pos ⟨hne, hwr⟩]; simp)
      · exact (set_w12_subset st p).2 _
          (by rw [binning_snd, if_pos ⟨hne, hwr⟩]; simp)
    · intro v hv
      rcases hv with hv | hv <;>
        rcases mem_set_writes hv with
          hx | hx | ⟨r3, h3, hx⟩ | hx | hx | ⟨w6, h6, hx⟩ | hx
      · rcases mem_exposure_writes hx with ⟨-, hx⟩
        simp at hx
      · rcases mem_binning_writes hx with ⟨-, -, hx | hx⟩
        · simpa using hx
        · simp at hx
      · rcases mem_px_writes h3 hx with ⟨-, s, -, hx⟩
        simp at hx
      · rcases mem_offset_writes hx with ⟨-, hx⟩ | ⟨-, hx⟩ <;> simp at hx
      · rcases mem_shape_writes hx with ⟨-, hx⟩ | ⟨-, hx⟩ <;> simp at hx
      · rcases mem_trigger_writes h6 hx with ⟨-, f, s, -, hx⟩
        simp at hx
      · simp at hx
      · rcases mem_exposure_writes hx with ⟨-, hx⟩
        simp at hx
      · rcases mem_binning_writes hx with ⟨-, -, hx | hx⟩
        · simp at hx
        · simpa using hx
      · rcases mem_px_writes h3 hx with ⟨-, s, -, hx⟩
        simp at hx
      · rcases mem_offset_writes hx with ⟨-, hx⟩ | ⟨-, hx⟩ <;> simp at hx
      · rcases mem_shape_writes hx with ⟨-, hx⟩ | ⟨-, hx⟩ <;> simp at hx
      · rcases mem_trigger_writes h6 hx with ⟨-, f, s, -, hx⟩
        simp at hx
      · simp at hx
  · intro hne hout
    refine ⟨?_, ?_, ?_⟩
    · rw [(set_ok_parts st p hok).2.1, offset_fst_x, if_pos hne]
    · exact (set_ok_parts st p hok).2.2.2.1 _
        (by rw [offset_snd]; simp [hne])
    · intro v hv
      rcases mem_set_writes hv with
        hx | hx | ⟨r3, h3, hx⟩ | hx | hx | ⟨w6, h6, hx⟩ | hx
      · rcases mem_exposure_writes hx with ⟨-, hx⟩
        simp at hx
      · rcases mem_binning_writes hx with ⟨-, -, hx | hx⟩ <;> simp at hx
      · rcases mem_px_writes h3 hx with ⟨-, s, -, hx⟩
        simp at hx
      · rcases mem_offset_writes hx with ⟨-, hx⟩ | ⟨-, hx⟩
        · simpa using hx
        · simp at hx
      · rcases mem_shape_writes hx with ⟨-, hx⟩ | ⟨-, hx⟩ <;> simp at hx
      · rcases mem_trigger_writes h6 hx with ⟨-, f, s, -, hx⟩
        simp at hx
      · simp at hx
  · intro hne hout
    refine ⟨?_, ?_, ?_⟩
    · rw [(set_ok_parts st p hok).2.1, offset_fst_y, if_pos hne]
    · exact (set_ok_parts st p hok).2.2.2.1 _
        (by rw [offset_snd]; simp [hne])
    · intro v hv
      rcases mem_set_writes hv with
        hx | hx | ⟨r3, h3, hx⟩ | hx | hx | ⟨w6, h6, hx⟩ | hx
      · rcases mem_exposure_writes hx with ⟨-, hx⟩
        simp at hx
      · rcases mem_binning_writes hx with ⟨-, -, hx | hx⟩ <;> simp at hx
      · rcases mem_px_writes h3 hx with ⟨-, s, -, hx⟩
        simp at hx
      · rcases mem_offset_writes hx with ⟨-, hx⟩ | ⟨-, hx⟩
        · simp at hx
        · simpa using hx
      · rcases mem_shape_writes hx with ⟨-, hx⟩ | ⟨-, hx⟩ <;> simp at hx
      · rcases mem_trigger_writes h6 hx with ⟨-, f, s, -, hx⟩
        simp at hx
      · simp at hx
  · intro hne hout
    refine ⟨?_, ?_, ?_⟩
    · rw [(set_ok_parts st p hok).2.2.1, shape_fst_x, if_pos hne]
    · exact (set_ok_parts st p hok).2.2.2.2.1 _
        (by rw [shape_snd]; simp [hne])
    · intro v hv
      rcases mem_set_writes hv with
        hx | hx | ⟨r3, h3, hx⟩ | hx | hx | ⟨w6, h6, hx⟩ | hx
      · rcases mem_exposure_writes hx with ⟨-, hx⟩
        simp at hx
      · rcases mem_binning_writes hx with ⟨-, -, hx | hx⟩ <;> simp at hx
      · rcases mem_px_writes h3 hx with ⟨-, s, -, hx⟩
        simp at hx
      · rcases mem_offset_writes hx with ⟨-, hx⟩ | ⟨-, hx⟩ <;> simp at hx
      · rcases mem_shape_writes hx with ⟨-, hx⟩ | ⟨-, hx⟩
        · simpa using hx
        · simp at hx
      · rcases mem_trigger_writes h6 hx with ⟨-, f, s, -, hx⟩
        simp at hx
      · simp at hx
  · intro hne hout
    refine ⟨?_, ?_, ?_⟩
    · rw [(set_ok_parts st p hok).2.2.1, shape_fst_y, if_pos hne]
    · exact (set_ok_parts st p hok).2.2.2.2.1 _
        (by rw [shape_snd]; simp [hne])
    · intro v hv
      rcases mem_set_writes hv with
        hx | hx | ⟨r3, h3, hx⟩ | hx | hx | ⟨w6, h6, hx⟩ | hx
      · rcases mem_exposure_writes hx with ⟨-, hx⟩
        simp at hx
      · rcases mem_binning_writes hx with ⟨-, -, hx | hx⟩ <;> simp at hx
      · rcases mem_px_writes h3 hx with ⟨-, s, -, hx⟩
        simp at hx
      · rcases mem_offset_writes hx with ⟨-, hx⟩ | ⟨-, hx⟩ <;> simp at hx
      · rcases mem_shape_writes hx with ⟨-, hx⟩ | ⟨-, hx⟩
        · simp at hx
        · simpa using hx
      · rcases mem_trigger_writes h6 hx with ⟨-, f, s, -, hx⟩
        simp at hx
      · simp at hx

/-- C1 witness: every numeric property set out of range on the concrete
state caches the clamped value. -/
theorem C1_clamping_witness :
    (EGCamera.set stW propsC1).state.settings.exposure_time_us =
      clampF propsC1.exposure_time_us stW.caps.exposure_time_us.low
        stW.caps.exposure_time_us.high
  ∧ (EGCamera.set stW propsC1).state.settings.binning =
      clampU propsC1.binning stW.caps.binning.low stW.caps.binning.high
  ∧ (EGCamera.set stW propsC1).state.settings.offset.x =
      clampU propsC1.offset.x stW.caps.offset.x.low stW.caps.offset.x.high
  ∧ (EGCamera.set stW propsC1).state.settings.offset.y =
      clampU propsC1.offset.y stW.caps.offset.y.low stW.caps.offset.y.high
  ∧ (EGCamera.set stW propsC1).state.settings.shape.x =
      clampU propsC1.shape.x stW.caps.shape.x.low stW.caps.shape.x.high
  ∧ (EGCamera.set stW propsC1).state.settings.shape.y =
      clampU propsC1.shape.y stW.caps.shape.y.low stW.caps.shape.y.high := by
  have h3 : maybe_set_px_type propsC1.pixel_type stW.settings.pixel_type =
      .ok (SampleType.u8, []) := rfl
  have h6 : maybe_set_trigger propsC1.frame_start
      stW.settings.frame_start = .ok [] := rfl
  have hok : (EGCamera.set stW propsC1).err = none := by
    rw [set_eq_ok h3 h6]
  have hc := C1_clamping stW propsC1 hok
  refine ⟨(hc.1 ?_ (Or.inr ?_)).1, (hc.2.1 (by decide) (Or.inr ?_)).1,
    (hc.2.2.1 (by decide) (Or.inr ?_)).1,
    (hc.2.2.2.1 (by decide) (Or.inr ?_)).1,
    (hc.2.2.2.2.1 (by decide) (Or.inr ?_)).1,
    (hc.2.2.2.2.2 (by decide) (Or.inl ?_)).1⟩
  · norm_num [propsC1, stW, settingsW, eps]
  · norm_num [propsC1, stW, capsW]
  · norm_num [propsC1, stW, capsW]
  · norm_num [propsC1, stW, capsW]
  · norm_num [propsC1, stW, capsW]
  · norm_num [propsC1, stW, capsW]
  · norm_num [propsC1, stW, capsW]
